import Mathlib

/-
Verification of the resilient step-execution core of the web-scraper-agent
repository: failure classification (src/utils/error_classifier.py), adaptive
retry with backoff (src/utils/retry_manager.py), fallback recovery
(src/utils/recovery_manager.py), domain rate limiting
(src/utils/rate_limiter.py) and duplicate-safe pagination
(src/utils/paginator.py), shallowly embedded in Lean.

Conventions of the embedding:
  * Python floats are modelled as rationals.
  * Python string membership (`sub in msg`) is infix search on character lists.
  * A raised exception is modelled by the `Failure` structure carrying the
    lowercase-able message text and whether the exception is a Playwright
    TimeoutError instance (the only type test the classifier performs).
  * `random.uniform(0.8, 1.2)` jitter draws and the per-attempt behaviour of
    the wrapped operation are passed in as explicit streams.
-/

namespace Scraper

/-- Does the first character list start the second? -/
def charsPrefix : List Char → List Char → Bool
  | [], _ => true
  | _ :: _, [] => false
  | a :: xs, b :: ys => a = b && charsPrefix xs ys

/-- Does the first character list occur contiguously inside the second? -/
def charsInfix (needle : List Char) : List Char → Bool
  | [] => needle.isEmpty
  | b :: ys => charsPrefix needle (b :: ys) || charsInfix needle ys

/-- Python `sub in msg` substring test. -/
def pyIn (sub msg : String) : Bool :=
  charsInfix sub.toList msg.toList

/-- Python `str.lower()` as character-wise case folding (every keyword the
classifier matches is ASCII). -/
def pyLower (s : String) : String :=
  String.mk (s.toList.map Char.toLower)

/-- A raised failure: its message text and whether it is a Playwright
TimeoutError instance (`isinstance(error, TimeoutError)` in the source). -/
structure Failure where
  msg : String
  is_timeout : Bool
deriving DecidableEq

namespace ErrorClassifier

/-- The ordered rule cascade of `ErrorClassifier.classify_error`
(error_classifier.py lines 8-85) over the lowercased message `m`
(the `error_msg` local) and the TimeoutError instance test; the first
matching rule wins. -/
def classify_from_msg (m : String) (is_timeout : Bool) : String :=
  if pyIn "dns" m || pyIn "name resolution" m || pyIn "nodename nor servname" m then "dns_error"
  else if pyIn "ssl" m || pyIn "tls" m || pyIn "certificate" m then "ssl_error"
  else if pyIn "connection refused" m || pyIn "connection reset" m then "connection_error"
  else if pyIn "network" m && pyIn "unreachable" m then "network_unreachable"
  else if pyIn "429" m || pyIn "too many requests" m || pyIn "rate limit" m then "rate_limit"
  else if pyIn "403" m || pyIn "forbidden" m then "forbidden"
  else if pyIn "404" m || pyIn "not found" m then "not_found"
  else if pyIn "500" m || pyIn "502" m || pyIn "503" m || pyIn "504" m then "server_error"
  else if is_timeout || pyIn "timeout" m then "timeout"
  else if pyIn "selector" m || pyIn "element" m || pyIn "locator" m then "selector_not_found"
  else if pyIn "stale" m && pyIn "element" m then "stale_element"
  else if pyIn "frame" m && (pyIn "not found" m || pyIn "detached" m) then "frame_error"
  else if pyIn "dialog" m || pyIn "alert" m || pyIn "popup" m then "dialog_error"
  else if pyIn "captcha" m || pyIn "recaptcha" m || pyIn "hcaptcha" m then "captcha_detected"
  else if pyIn "cloudflare" m || pyIn "challenge" m || pyIn "verification" m then "bot_detection"
  else if pyIn "blocked" m || pyIn "banned" m then "ip_blocked"
  else if pyIn "json" m && (pyIn "parse" m || pyIn "decode" m) then "json_parse_error"
  else if pyIn "encoding" m || pyIn "charset" m || pyIn "unicode" m then "encoding_error"
  else if pyIn "javascript" m || pyIn "script" m || pyIn "eval" m then "javascript_error"
  else if pyIn "memory" m || pyIn "out of memory" m then "memory_error"
  else if pyIn "cpu" m || (pyIn "timeout" m && pyIn "script" m) then "cpu_timeout"
  else if pyIn "disk" m || pyIn "space" m then "disk_space_error"
  else if pyIn "ajax" m || pyIn "xhr" m || pyIn "fetch" m then "ajax_error"
  else if pyIn "websocket" m then "websocket_error"
  else if pyIn "race" m || pyIn "timing" m then "race_condition"
  else if pyIn "geo" m || pyIn "region" m || pyIn "location" m || pyIn "blocked" m then "geo_blocked"
  else if pyIn "cookie" m || pyIn "localstorage" m then "storage_error"
  else "unknown"

/-- `ErrorClassifier.classify_error`: lowercase the message
(`error_msg = str(error).lower()`) and run the cascade. -/
def classify_error (error : Failure) : String :=
  classify_from_msg (pyLower error.msg) error.is_timeout

/-- `no_retry_types` list of `ErrorClassifier.should_retry`. -/
def no_retry_types : List String :=
  ["bot_detection", "ip_blocked", "geo_blocked", "captcha_detected",
   "forbidden", "not_found", "memory_error", "disk_space_error"]

/-- `limited_retry_types` list of `ErrorClassifier.should_retry`. -/
def limited_retry_types : List String :=
  ["dns_error", "ssl_error", "server_error"]

/-- `ErrorClassifier.should_retry` (error_classifier.py lines 133-160). -/
def should_retry (error_type : String) : Bool :=
  if error_type ∈ no_retry_types then false
  else if error_type ∈ limited_retry_types then true
  else true

end ErrorClassifier

namespace RetryManager

/-- The `base_delays` dictionary of `RetryManager._calculate_delay`
(retry_manager.py lines 87-133), in source order. -/
def base_delays : List (String × ℚ) :=
  [("dns_error", 2), ("ssl_error", 3), ("connection_error", 1), ("network_unreachable", 5),
   ("rate_limit", 60), ("server_error", 10), ("forbidden", 30), ("not_found", 0),
   ("timeout", 5), ("selector_not_found", 1), ("stale_element", 1/2), ("frame_error", 1),
   ("dialog_error", 2),
   ("bot_detection", 120), ("captcha_detected", 300), ("ip_blocked", 600),
   ("javascript_error", 2), ("json_parse_error", 1), ("encoding_error", 1), ("ajax_error", 3),
   ("memory_error", 10), ("cpu_timeout", 5), ("disk_space_error", 0),
   ("page_load_error", 4), ("data_extraction_error", 1), ("websocket_error", 2),
   ("race_condition", 1), ("geo_blocked", 0), ("storage_error", 1),
   ("unknown", 2)]

/-- `base_delays.get(error_type, 2.0)`. -/
def base_delay_of (error_type : String) : ℚ :=
  (base_delays.lookup error_type).getD 2

/-- The `max_delays` dictionary of `RetryManager._calculate_delay`
(retry_manager.py lines 149-154). -/
def max_delays : List (String × ℚ) :=
  [("rate_limit", 1800), ("bot_detection", 3600), ("ip_blocked", 7200), ("default", 300)]

/-- `max_delays.get(error_type, max_delays["default"])`. -/
def max_delay_of (error_type : String) : ℚ :=
  (max_delays.lookup error_type).getD 300

/-- The `exponential_delay` local of `_calculate_delay` (lines 137-142):
base times 2^attempt for rate_limit, base times 1.5^attempt otherwise.
This is the delay before the jitter multiplication. -/
def exp_delay (error_type : String) (attempt : Nat) : ℚ :=
  if error_type = "rate_limit" then base_delay_of error_type * 2 ^ attempt
  else base_delay_of error_type * (3/2 : ℚ) ^ attempt

/-- The pre-jitter delay a failure at index `attempt` leads to: the retry-after
override when present for rate_limit, the exponential delay otherwise. -/
def pre_jitter_delay (error_type : String) (attempt : Nat) (retry_after : Option ℚ) : ℚ :=
  if retry_after.isSome ∧ error_type = "rate_limit" then retry_after.getD 0 * (6/5)
  else exp_delay error_type attempt

/-- The retry context dictionary; only its "retry_after" key is ever read. -/
abbrev Ctx := List (String × ℚ)

/-- Line 73 of retry_manager.py:
`retry_after = context.get("retry_after") if context else None`
(an empty dict is falsy). -/
def retry_after_of (ctx : Ctx) : Option ℚ :=
  if ctx.isEmpty then none else ctx.lookup "retry_after"

/-- `RetryManager._calculate_delay` (retry_manager.py lines 79-157). The
`context` argument is received but never used by the source body; the jitter
draw `random.uniform(0.8, 1.2)` is the explicit argument `jitter`. -/
def calculate_delay (error_type : String) (attempt : Nat) (_context : Ctx)
    (retry_after : Option ℚ) (jitter : ℚ) : ℚ :=
  if retry_after.isSome ∧ error_type = "rate_limit" then retry_after.getD 0 * (6/5)
  else min (exp_delay error_type attempt * jitter) (max_delay_of error_type)

/-- The observable trace of one `execute_with_retry` call: final outcome,
number of invocations of the wrapped operation, the sleeps performed in
order, and the final `failure_counts` dictionary. -/
structure RunResult (α : Type) where
  outcome : Except Failure α
  attempts : Nat
  delays : List ℚ
  counts : List (String × Nat)

/-- Dictionary write used for `self.failure_counts[name] = v`: replace the
first binding of the key or append a new one. -/
def setCount : List (String × Nat) → String → Nat → List (String × Nat)
  | [], k, v => [(k, v)]
  | (k', v') :: rest, k, v =>
    if k' = k then (k, v) :: rest else (k', v') :: setCount rest k v

/-- `self.failure_counts[name] = self.failure_counts.get(name, 0) + 1`. -/
def bumpCount (counts : List (String × Nat)) (name : String) : List (String × Nat) :=
  setCount counts name ((counts.lookup name).getD 0 + 1)

/-- `if step_name in self.failure_counts: self.failure_counts[step_name] = 0`. -/
def resetIfPresent (counts : List (String × Nat)) (name : String) : List (String × Nat) :=
  if (counts.lookup name).isSome then setCount counts name 0 else counts

/-- The body of the `for attempt in range(max_retries + 1)` loop of
`RetryManager.execute_with_retry` (retry_manager.py lines 41-77). `fuel` is
the number of loop iterations still permitted; it starts at
`max_retries + 1` and the `attempt == max_retries` test inside the body makes
the `fuel = 0` case unreachable (it exists only for structural recursion).
`step_func` gives the outcome of the operation at each attempt index, `jit`
the jitter draw consumed at each retried attempt. The `retry_after`
parameter is threaded exactly as the Python local: it is overwritten from
`context.get("retry_after")` (line 73) before any use. Wall-clock bookkeeping
(`last_retry_times`, timing logs) is not modelled. -/
def exec_go {α : Type} (step_func : Nat → Except Failure α) (jit : Nat → ℚ) (ctx : Ctx)
    (step_name : String) (max_retries : Nat) :
    Nat → Nat → Option ℚ → List ℚ → List (String × Nat) → RunResult α
  | attempt, fuel + 1, retry_after, ds, counts =>
    (match step_func attempt with
     | Except.ok v =>
       ⟨Except.ok v, attempt + 1, ds.reverse, resetIfPresent counts step_name⟩
     | Except.error e =>
       let error_type := ErrorClassifier.classify_error e
       let counts' := bumpCount counts step_name
       if attempt = max_retries then
         ⟨Except.error e, attempt + 1, ds.reverse, counts'⟩
       else if ! ErrorClassifier.should_retry error_type then
         ⟨Except.error e, attempt + 1, ds.reverse, counts'⟩
       else
         let retry_after := retry_after_of ctx
         let delay := calculate_delay error_type attempt ctx retry_after (jit attempt)
         exec_go step_func jit ctx step_name max_retries
           (attempt + 1) fuel retry_after (delay :: ds) counts')
  | attempt, 0, _, ds, counts =>
    ⟨Except.error ⟨"", false⟩, attempt, ds.reverse, counts⟩

/-- `RetryManager.execute_with_retry` (retry_manager.py lines 16-77).
Source defaults: `max_retries = 3`, `context = None`, `retry_after = None`.
`context = context or {}` (line 39) is the `Option.getD` normalisation;
`counts0` is the pre-existing `self.failure_counts` state. -/
def execute_with_retry {α : Type} (step_func : Nat → Except Failure α) (jit : Nat → ℚ)
    (step_name : String) (max_retries : Nat) (context : Option Ctx)
    (retry_after : Option ℚ) (counts0 : List (String × Nat)) : RunResult α :=
  let ctx := context.getD []
  exec_go step_func jit ctx step_name max_retries 0 (max_retries + 1) retry_after [] counts0

end RetryManager

/-- A Python value stored in a step/context dictionary: strings, numbers,
booleans, lists and nested dictionaries are the shapes the recovery code
writes and reads. -/
inductive Value where
  | str (s : String)
  | num (q : ℚ)
  | bool (b : Bool)
  | list (vs : List Value)
  | dict (fields : List (String × Value))

/-- A step or context descriptor: a Python dict in insertion order. -/
abbrev StepDict := List (String × Value)

/-- Python dict item assignment `d[k] = v`: replace the first binding of the
key in place, or append a new binding. -/
def setKey : StepDict → String → Value → StepDict
  | [], k, v => [(k, v)]
  | (k', v') :: rest, k, v =>
    if k' = k then (k, v) :: rest else (k', v') :: setKey rest k v

/-- `d.get(k, dflt)` where the call site consumes the value as a string.
The source assumes string-typed fields here (a non-string would raise). -/
def getStr (d : StepDict) (k : String) (dflt : String) : String :=
  match d.lookup k with
  | some (Value.str s) => s
  | _ => dflt

/-- `d.get(k, dflt)` where the call site consumes the value as a number. -/
def getNum (d : StepDict) (k : String) (dflt : ℚ) : ℚ :=
  match d.lookup k with
  | some (Value.num q) => q
  | _ => dflt

/-- `d.get(k, dflt)` where the call site consumes the value as a
non-negative integer (the retry counters in the source). -/
def getNat (d : StepDict) (k : String) (dflt : Nat) : Nat :=
  match d.lookup k with
  | some (Value.num q) => q.num.toNat
  | _ => dflt

/-- Python truthiness of an optional dict entry, as tested by
`context.get("spa")` and `context.get("api_endpoints")`. -/
def truthy : Option Value → Bool
  | none => false
  | some (Value.str s) => ! (s = "")
  | some (Value.num q) => ! (q = 0)
  | some (Value.bool b) => b
  | some (Value.list vs) => ! vs.isEmpty
  | some (Value.dict fields) => ! fields.isEmpty

/-- A single-quote character as a string (written via its code point so that
the selector template strings below stay plain). -/
def squote : String := String.mk [Char.ofNat 39]

/-- `list(set(xs))` as used on the selector candidates: Python set iteration
order is unspecified, so we fix the first-occurrence order; no property
proved below depends on the order. -/
def pySetDedup : List String → List String
  | [] => []
  | s :: rest =>
    if s ∈ rest then pySetDedup rest ++ [s] else s :: pySetDedup rest

namespace RecoveryManager

/-- `RecoveryManager._broaden_selectors` (recovery_manager.py lines 50-72). -/
def _broaden_selectors (step _context : StepDict) : StepDict :=
  if getStr step "action" "" = "click" ∨ getStr step "action" "" = "fill" ∨
      getStr step "action" "" = "extract" then
    let original_selector := getStr step "selector" ""
    let element := getStr step "element" ""
    let broader_selectors : List String :=
      [original_selector,
       String.map (fun c => if c = '#' then '.' else c) original_selector,
       String.mk (original_selector.toList.filter (fun c => ! (c = '.'))),
       "[data-testid*=" ++ squote ++ element ++ squote ++ "]",
       "[aria-label*=" ++ squote ++ element ++ squote ++ "]"]
    let broader_selectors := pySetDedup (broader_selectors.filter (fun s => ! (s = "")))
    if broader_selectors.length > 1 then
      setKey step "fallback_selectors" (Value.list ((broader_selectors.drop 1).map Value.str))
    else step
  else step

/-- `RecoveryManager._add_timeouts` (recovery_manager.py lines 74-90). -/
def _add_timeouts (step context : StepDict) : StepDict :=
  let step :=
    if (step.lookup "timeout").isSome then
      setKey step "timeout" (Value.num (min (getNum step "timeout" 0 * (3/2)) 30000))
    else
      setKey step "timeout" (Value.num 10000)
  if getStr step "action" "" = "extract" ∧ truthy (context.lookup "spa") then
    setKey step "wait_for" (Value.str "networkidle")
  else if getStr step "action" "" = "extract" then
    setKey step "wait_for" (Value.str "domcontentloaded")
  else step

/-- `RecoveryManager._switch_to_api_mode` (recovery_manager.py lines 92-107).
`context["api_endpoints"][0]` assumes a list value (anything else would raise
in the source). -/
def _switch_to_api_mode (step context : StepDict) : StepDict :=
  if getStr step "action" "" = "extract" ∧ truthy (context.lookup "api_endpoints") then
    let endpoint :=
      match context.lookup "api_endpoints" with
      | some (Value.list (e :: _)) => e
      | _ => Value.str ""
    let step := setKey step "action" (Value.str "api_extract")
    let step := setKey step "api_endpoint" endpoint
    setKey step "comment" (Value.str (getStr step "comment" "Extract" ++ " (API fallback)"))
  else
    let step := setKey step "stealth_mode" (Value.bool true)
    setKey step "delay" (Value.num 5000)

/-- `RecoveryManager._simplify_javascript` (recovery_manager.py lines 109-128). -/
def _simplify_javascript (step _context : StepDict) : StepDict :=
  if getStr step "action" "" = "extract" then
    let original_fields :=
      match step.lookup "fields" with
      | some (Value.dict fields) => fields
      | _ => []
    let simplified_fields := original_fields.map (fun p =>
      if p.1 = "title" ∨ p.1 = "text" ∨ p.1 = "content" then
        (p.1, Value.str "h1, h2, h3, p, div, span")
      else p)
    let step := setKey step "fields" (Value.dict simplified_fields)
    setKey step "simplified" (Value.bool true)
  else step

/-- `RecoveryManager._add_wait_conditions` (recovery_manager.py lines 130-140). -/
def _add_wait_conditions (step context : StepDict) : StepDict :=
  let step := setKey step "wait_until" (Value.str "networkidle")
  let step := setKey step "timeout" (Value.num 15000)
  if truthy (context.lookup "spa") then
    setKey step "wait_for_selector" (Value.str "body[data-loaded], main, .content")
  else step

/-- `RecoveryManager._add_retry_logic` (recovery_manager.py lines 142-148). -/
def _add_retry_logic (step _context : StepDict) : StepDict :=
  let step := setKey step "retry_count" (Value.num 3)
  setKey step "retry_delay" (Value.num 2000)

/-- `RecoveryManager._handle_rate_limit` (recovery_manager.py lines 150-158). -/
def _handle_rate_limit (step context : StepDict) : StepDict :=
  let step := setKey step "rate_limited" (Value.bool true)
  let step := setKey step "delay"
    (Value.num (min 300 (30 * 2 ^ getNat context "retry_count" 0)))
  let step := setKey step "use_proxy" (Value.bool true)
  setKey step "user_agent_rotation" (Value.bool true)

/-- `RecoveryManager._handle_dns_error` (recovery_manager.py lines 160-167). -/
def _handle_dns_error (step _context : StepDict) : StepDict :=
  let step := setKey step "dns_retry" (Value.bool true)
  let step := setKey step "timeout" (Value.num 30000)
  setKey step "use_alternate_dns" (Value.bool true)

/-- `RecoveryManager._handle_ssl_error` (recovery_manager.py lines 169-175). -/
def _handle_ssl_error (step _context : StepDict) : StepDict :=
  let step := setKey step "ignore_ssl_errors" (Value.bool true)
  setKey step "ssl_retry" (Value.bool true)

/-- `RecoveryManager._handle_connection_error` (recovery_manager.py lines 177-184). -/
def _handle_connection_error (step _context : StepDict) : StepDict :=
  let step := setKey step "connection_retry" (Value.bool true)
  let step := setKey step "timeout" (Value.num 20000)
  setKey step "retry_delay" (Value.num 5000)

/-- `RecoveryManager._handle_server_error` (recovery_manager.py lines 186-193). -/
def _handle_server_error (step _context : StepDict) : StepDict :=
  let step := setKey step "server_error_retry" (Value.bool true)
  let step := setKey step "retry_delay" (Value.num 10000)
  setKey step "max_server_retries" (Value.num 2)

/-- `RecoveryManager._handle_memory_error` (recovery_manager.py lines 195-202). -/
def _handle_memory_error (step _context : StepDict) : StepDict :=
  let step := setKey step "restart_browser" (Value.bool true)
  let step := setKey step "reduce_concurrency" (Value.bool true)
  setKey step "clear_cache" (Value.bool true)

/-- `RecoveryManager._handle_encoding_error` (recovery_manager.py lines 204-210). -/
def _handle_encoding_error (step _context : StepDict) : StepDict :=
  let step := setKey step "encoding_fallback" (Value.bool true)
  setKey step "try_encodings"
    (Value.list [Value.str "utf-8", Value.str "latin-1",
                 Value.str "iso-8859-1", Value.str "cp1252"])

/-- `RecoveryManager._handle_json_error` (recovery_manager.py lines 212-218). -/
def _handle_json_error (step _context : StepDict) : StepDict :=
  let step := setKey step "json_fallback" (Value.bool true)
  setKey step "skip_malformed_json" (Value.bool true)

/-- `RecoveryManager._handle_stale_element` (recovery_manager.py lines 220-227). -/
def _handle_stale_element (step _context : StepDict) : StepDict :=
  let step := setKey step "stale_element_retry" (Value.bool true)
  let step := setKey step "refind_element" (Value.bool true)
  setKey step "wait_before_refind" (Value.num 1000)

/-- `RecoveryManager._handle_frame_error` (recovery_manager.py lines 229-235). -/
def _handle_frame_error (step _context : StepDict) : StepDict :=
  let step := setKey step "frame_fallback" (Value.bool true)
  setKey step "try_main_frame_first" (Value.bool true)

/-- `RecoveryManager._handle_dialog_error` (recovery_manager.py lines 237-243). -/
def _handle_dialog_error (step _context : StepDict) : StepDict :=
  let step := setKey step "auto_dismiss_dialogs" (Value.bool true)
  setKey step "dialog_timeout" (Value.num 5000)

/-- `RecoveryManager._handle_ajax_error` (recovery_manager.py lines 245-252). -/
def _handle_ajax_error (step _context : StepDict) : StepDict :=
  let step := setKey step "ajax_retry" (Value.bool true)
  let step := setKey step "wait_for_ajax" (Value.bool true)
  setKey step "ajax_timeout" (Value.num 10000)

/-- `RecoveryManager._handle_cpu_timeout` (recovery_manager.py lines 254-261). -/
def _handle_cpu_timeout (step _context : StepDict) : StepDict :=
  let step := setKey step "cpu_timeout_retry" (Value.bool true)
  let step := setKey step "simplify_processing" (Value.bool true)
  setKey step "script_timeout" (Value.num 30000)

/-- `RecoveryManager._default_fallback` (recovery_manager.py lines 263-270). -/
def _default_fallback (step _context : StepDict) : StepDict :=
  let step := setKey step "fallback_attempted" (Value.bool true)
  let step := setKey step "retry_count"
    (Value.num (min (getNat step "retry_count" 0 + 1) 3 : Nat))
  setKey step "retry_delay" (Value.num 2000)

/-- The `strategy_map` dispatch of `get_fallback_strategy` (lines 25-47):
`strategy_map.get(error_type, _default_fallback)` applied to the copied step.
The "network_error" key is in the source map even though the classifier
never produces it. -/
def strategyApply (error_type : String) (step context : StepDict) : StepDict :=
  if error_type = "selector_not_found" then _broaden_selectors step context
  else if error_type = "timeout" then _add_timeouts step context
  else if error_type = "bot_detection" then _switch_to_api_mode step context
  else if error_type = "javascript_error" then _simplify_javascript step context
  else if error_type = "page_load_error" then _add_wait_conditions step context
  else if error_type = "network_error" then _add_retry_logic step context
  else if error_type = "rate_limit" then _handle_rate_limit step context
  else if error_type = "dns_error" then _handle_dns_error step context
  else if error_type = "ssl_error" then _handle_ssl_error step context
  else if error_type = "connection_error" then _handle_connection_error step context
  else if error_type = "server_error" then _handle_server_error step context
  else if error_type = "memory_error" then _handle_memory_error step context
  else if error_type = "encoding_error" then _handle_encoding_error step context
  else if error_type = "json_parse_error" then _handle_json_error step context
  else if error_type = "stale_element" then _handle_stale_element step context
  else if error_type = "frame_error" then _handle_frame_error step context
  else if error_type = "dialog_error" then _handle_dialog_error step context
  else if error_type = "ajax_error" then _handle_ajax_error step context
  else if error_type = "cpu_timeout" then _handle_cpu_timeout step context
  else _default_fallback step context

/-- A heap of step dictionaries; references are indices. This makes the
Python aliasing explicit: `copy.deepcopy` allocates a fresh reference, and
the strategy functions mutate only the step they are handed. -/
abbrev Store := List StepDict

/-- Dereference. -/
def readRef (σ : Store) (r : Nat) : StepDict := σ[r]?.getD []

/-- In-place update of the referenced step. -/
def writeRef (σ : Store) (r : Nat) (d : StepDict) : Store := σ.set r d

/-- `copy.deepcopy(original_step)` (line 23): allocate a fresh reference
holding the same contents. -/
def deepcopy (σ : Store) (r : Nat) : Store × Nat := (σ ++ [readRef σ r], σ.length)

/-- `RecoveryManager.get_fallback_strategy` (recovery_manager.py lines 9-48):
deep-copy the original step, then run the per-kind strategy (which assigns
into the copy) and return the copy's reference. `context = context or {}`
is the identity on our `StepDict` contexts ({} and [] coincide). -/
def get_fallback_strategy (error_type : String) (σ : Store) (r : Nat)
    (context : StepDict) : Store × Nat :=
  let p := deepcopy σ r
  let fallback_step := strategyApply error_type (readRef p.1 p.2) context
  (writeRef p.1 p.2 fallback_step, p.2)

/-- `no_recovery_types` of `should_attempt_recovery` (lines 276-283). -/
def no_recovery_types : List String :=
  ["memory_error", "disk_space_error", "ip_blocked", "geo_blocked",
   "forbidden", "not_found"]

/-- `limited_recovery_types` of `should_attempt_recovery` (lines 286-291). -/
def limited_recovery_types : List String :=
  ["bot_detection", "captcha_detected", "dns_error", "ssl_error"]

/-- `RecoveryManager.should_attempt_recovery` (recovery_manager.py lines 272-307). -/
def should_attempt_recovery (error_type : String) (attempt_count : Nat) : Bool :=
  if error_type ∈ no_recovery_types then false
  else if error_type ∈ limited_recovery_types ∧ attempt_count > 1 then false
  else if error_type = "server_error" ∧ attempt_count > 3 then false
  else if error_type = "rate_limit" ∧ attempt_count > 5 then false
  else true

end RecoveryManager

namespace RateLimiter

/-- The `self.domain_delays` state: `defaultdict(float)`, so every absent
domain reads as 0. -/
abbrev DomainDelays := String → ℚ

/-- `RateLimiter.set_domain_delay` (rate_limiter.py lines 22-25):
`self.domain_delays[domain] = max(delay_seconds, 0.1)`. -/
def set_domain_delay (st : DomainDelays) (domain : String) (delay_seconds : ℚ) :
    DomainDelays :=
  fun d => if d = domain then max delay_seconds (1/10) else st d

/-- `RateLimiter.update_from_retry_after` (rate_limiter.py lines 27-33):
raise the domain delay to `max(current, retry_after * 1.2)` through
`set_domain_delay`. -/
def update_from_retry_after (st : DomainDelays) (domain : String)
    (retry_after_seconds : ℚ) : DomainDelays :=
  set_domain_delay st domain (max (st domain) (retry_after_seconds * (6/5)))

end RateLimiter

namespace Paginator

/-- One pass of the `for item in new_data` deduplication loop of
`auto_paginate` (paginator.py lines 35-40): `item_hash = hash(str(item))`,
keep the item and record the hash when unseen. Returns the retained
`unique_new` items and the grown `seen_hashes` set. -/
def dedupNew {α : Type} (hash : String → ℤ) (strOf : α → String) :
    List ℤ → List α → List α × List ℤ
  | seen, [] => ([], seen)
  | seen, item :: rest =>
    let item_hash := hash (strOf item)
    if item_hash ∈ seen then dedupNew hash strOf seen rest
    else
      let p := dedupNew hash strOf (item_hash :: seen) rest
      (item :: p.1, p.2)

/-- The aggregate a pagination run returns, together with the number of
times the extraction function was invoked. -/
structure PagResult (α : Type) where
  data : List α
  calls : Nat

/-- The `while page_num <= max_pages` loop of `Paginator.auto_paginate`
(paginator.py lines 24-77). `fuel` is `max_pages - page_num + 1`, the number
of iterations still allowed. `extract` gives the items `extract_fn` yields on
each page; the next-button search and the infinite-scroll fallback both just
advance `page_num` by one and continue (lines 66-77), so navigation is
abstracted into the page index. The break on zero new unique items
(lines 42-44) happens before any further extraction. -/
def autoPaginateAux {α : Type} (hash : String → ℤ) (strOf : α → String)
    (extract : Nat → List α) :
    Nat → Nat → List α → List ℤ → PagResult α
  | 0, _, all_data, _ => ⟨all_data, 0⟩
  | fuel + 1, page_num, all_data, seen_hashes =>
    let new_data := extract page_num
    let p := dedupNew hash strOf seen_hashes new_data
    if p.1.isEmpty then ⟨all_data, 1⟩
    else
      let r := autoPaginateAux hash strOf extract fuel (page_num + 1)
        (all_data ++ p.1) p.2
      ⟨r.data, r.calls + 1⟩

/-- `Paginator.auto_paginate` (paginator.py lines 7-83). Source defaults:
`max_pages = 10`; the `next_text` parameter does not influence the loop
state we model. `page_num` starts at 1 with empty aggregate and empty
`seen_hashes`. -/
def auto_paginate {α : Type} (hash : String → ℤ) (strOf : α → String)
    (extract : Nat → List α) (max_pages : Nat) : PagResult α :=
  autoPaginateAux hash strOf extract max_pages 1 [] []

/-- The aggregate and seen-hash set a run would hold after `i` completed
loop iterations (used to name "the items of iteration i+1 not seen before
in this run" in specifications). -/
def pagState {α : Type} (hash : String → ℤ) (strOf : α → String)
    (extract : Nat → List α) : Nat → List α × List ℤ
  | 0 => ([], [])
  | i + 1 =>
    let s := pagState hash strOf extract i
    let p := dedupNew hash strOf s.2 (extract (i + 1))
    (s.1 ++ p.1, p.2)

/-- The new unique items iteration `i + 1` would retain. -/
def uniqueAt {α : Type} (hash : String → ℤ) (strOf : α → String)
    (extract : Nat → List α) (i : Nat) : List α :=
  (dedupNew hash strOf (pagState hash strOf extract i).2 (extract (i + 1))).1

end Paginator

/-! ## Claim-side definitions

Definitions in this section follow the wording of spec claims (not the
source); they exist to be compared against the source-side definitions
above. -/

/-- The recovery predicate as claim C5 words it: false for every attempt
count on all eight never-retried kinds, false for the limited subset once
the count exceeds 1, false for server_error past 3 and rate_limit past 5,
true otherwise. -/
def claimedRecoveryC5 (error_type : String) (attempt_count : Nat) : Bool :=
  if error_type ∈ ["bot_detection", "ip_blocked", "geo_blocked", "captcha_detected",
      "forbidden", "not_found", "memory_error", "disk_space_error"] then false
  else if error_type ∈ ["bot_detection", "captcha_detected", "dns_error", "ssl_error"] ∧
      attempt_count > 1 then false
  else if error_type = "server_error" ∧ attempt_count > 3 then false
  else if error_type = "rate_limit" ∧ attempt_count > 5 then false
  else true

/-- The delay formula as claim C3 words it: a base table carrying only
rate_limit 60, server_error 10, timeout 5, bot_detection 120 and default 2,
and a cap of 1800 for rate_limit (in-formula), 3600 for bot_detection and
300 by default. -/
def claimedDelayC3 (error_type : String) (attempt : Nat) (retry_after : Option ℚ)
    (jitter : ℚ) : ℚ :=
  if retry_after.isSome ∧ error_type = "rate_limit" then retry_after.getD 0 * (6/5)
  else if error_type = "rate_limit" then min ((60 : ℚ) * 2 ^ attempt * jitter) 1800
  else
    let base : ℚ :=
      if error_type = "server_error" then 10
      else if error_type = "timeout" then 5
      else if error_type = "bot_detection" then 120
      else 2
    let cap : ℚ := if error_type = "bot_detection" then 3600 else 300
    min (base * (3/2 : ℚ) ^ attempt * jitter) cap

/-- A concrete content-fingerprint function (sum of character codes), used
only to exhibit concrete pagination runs. -/
def strCode (s : String) : ℤ :=
  ((s.toList.map Char.toNat).sum : ℤ)

/-! ## Claim theorems -/

/-- C2: `should_retry(kind)` is false for exactly the eight kinds
bot_detection, ip_blocked, geo_blocked, captcha_detected, forbidden,
not_found, memory_error, disk_space_error, and true for every other kind
string, including "unknown". -/
theorem should_retry_false_iff_c2 :
    (∀ error_type : String,
      ErrorClassifier.should_retry error_type = false ↔
        error_type ∈ ["bot_detection", "ip_blocked", "geo_blocked", "captcha_detected",
          "forbidden", "not_found", "memory_error", "disk_space_error"]) ∧
    ErrorClassifier.should_retry "unknown" = true := by
  constructor
  · intro error_type
    unfold ErrorClassifier.should_retry
    split_ifs with h1 h2 <;>
      simp_all [ErrorClassifier.no_retry_types]
  · decide

/-- C5 fails on the code: the source's `no_recovery_types` has only six
kinds; for bot_detection (and captcha_detected) at attempt count 1 the code
allows recovery, where the claim (which puts bot_detection in the
always-false set) demands false. -/
theorem should_attempt_recovery_c5_counterexample :
    RecoveryManager.should_attempt_recovery "bot_detection" 1 = true ∧
    claimedRecoveryC5 "bot_detection" 1 = false := by
  decide

/-- C5 amended: recovery is refused exactly when the kind is one of the six
kinds ip_blocked, geo_blocked, forbidden, not_found, memory_error,
disk_space_error (for every attempt count), or the kind is one of
bot_detection, captcha_detected, dns_error, ssl_error with attempt count
above 1, or server_error above 3, or rate_limit above 5; recovery is
attempted in every other case. -/
theorem should_attempt_recovery_c5_amended :
    ∀ (error_type : String) (attempt_count : Nat),
      RecoveryManager.should_attempt_recovery error_type attempt_count = false ↔
        (error_type ∈ ["ip_blocked", "geo_blocked", "forbidden", "not_found",
            "memory_error", "disk_space_error"] ∨
         (error_type ∈ ["bot_detection", "captcha_detected", "dns_error", "ssl_error"] ∧
            1 < attempt_count) ∨
         (error_type = "server_error" ∧ 3 < attempt_count) ∨
         (error_type = "rate_limit" ∧ 5 < attempt_count)) := by
  intro error_type attempt_count
  unfold RecoveryManager.should_attempt_recovery
  split_ifs with h1 h2 h3 h4 <;>
    simp_all [RecoveryManager.no_recovery_types,
      RecoveryManager.limited_recovery_types] <;>
    tauto

/-- C8: after `update_from_retry_after(d, s)` the domain delay equals
`max(previous, s * 1.2)` clamped below at 0.1, and in particular the update
never decreases the domain's delay. -/
theorem update_from_retry_after_c8 :
    ∀ (st : RateLimiter.DomainDelays) (domain : String) (seconds : ℚ),
      RateLimiter.update_from_retry_after st domain seconds domain =
        max (max (st domain) (seconds * (6/5))) (1/10) ∧
      st domain ≤ RateLimiter.update_from_retry_after st domain seconds domain := by
  intro st domain seconds
  have hval : RateLimiter.update_from_retry_after st domain seconds domain =
      max (max (st domain) (seconds * (6/5))) (1/10) := by
    simp [RateLimiter.update_from_retry_after, RateLimiter.set_domain_delay]
  refine ⟨hval, ?_⟩
  rw [hval]
  exact le_max_of_le_left (le_max_left _ _)

/-- C3 fails on the code: at kind ssl_error, attempt 0, no retry-after hint
and jitter 1 (which lies in [0.8, 1.2]), the source computes 3 (its base
table carries ssl_error at 3.0) while the claim's formula, whose base table
defaults to 2 outside the four named kinds, yields 2. -/
theorem calculate_delay_c3_counterexample :
    ((0.8 : ℚ) ≤ 1 ∧ (1 : ℚ) ≤ 1.2) ∧
    RetryManager.calculate_delay "ssl_error" 0 [] none 1 = 3 ∧
    claimedDelayC3 "ssl_error" 0 none 1 = 2 := by
  have hb : RetryManager.base_delay_of "ssl_error" = 3 := by decide
  have hm : RetryManager.max_delay_of "ssl_error" = 300 := by decide
  refine ⟨⟨by norm_num, by norm_num⟩, ?_, ?_⟩
  · norm_num [RetryManager.calculate_delay, RetryManager.exp_delay, hb, hm, min_def]
  · norm_num [claimedDelayC3, min_def]
    decide

/-- C3 amended: for every kind, attempt and jitter in [0.8, 1.2], without a
retry-after hint the delay is min(base(kind) * 2^attempt * jitter, 1800)
for rate_limit and min(base(kind) * 1.5^attempt * jitter, cap(kind))
otherwise, where base is the full per-kind table of the source (default 2)
and cap is 1800 for rate_limit, 3600 for bot_detection, 7200 for ip_blocked
and 300 otherwise; with a retry-after hint r and kind rate_limit the delay
is exactly r * 1.2, unjittered and uncapped. -/
theorem calculate_delay_c3_amended :
    ∀ (error_type : String) (attempt : Nat) (ctx : RetryManager.Ctx)
      (retry_after : Option ℚ) (jitter : ℚ),
      (0.8 : ℚ) ≤ jitter → jitter ≤ 1.2 →
      RetryManager.calculate_delay error_type attempt ctx retry_after jitter =
        if retry_after.isSome ∧ error_type = "rate_limit" then
          retry_after.getD 0 * (6/5)
        else if error_type = "rate_limit" then
          min (RetryManager.base_delay_of error_type * 2 ^ attempt * jitter) 1800
        else
          min (RetryManager.base_delay_of error_type * (3/2 : ℚ) ^ attempt * jitter)
            (RetryManager.max_delay_of error_type) := by
  intro error_type attempt ctx retry_after jitter _ _
  by_cases h1 : retry_after.isSome ∧ error_type = "rate_limit"
  · simp [RetryManager.calculate_delay, h1]
  · by_cases h2 : error_type = "rate_limit"
    · subst h2
      have hra : retry_after = none := by
        cases retry_after with
        | none => rfl
        | some r => exact absurd ⟨rfl, rfl⟩ h1
      subst hra
      have hmax : RetryManager.max_delay_of "rate_limit" = 1800 := by decide
      simp [RetryManager.calculate_delay, RetryManager.exp_delay, hmax]
    · simp [RetryManager.calculate_delay, RetryManager.exp_delay, h1, h2]

/-- Witness for the amended C3 at kind rate_limit, attempt 1, no hint,
jitter 1. -/
theorem calculate_delay_c3_amended_witness :
    ((0.8 : ℚ) ≤ 1 ∧ (1 : ℚ) ≤ 1.2) ∧
    RetryManager.calculate_delay "rate_limit" 1 [] none 1 =
      (if (none : Option ℚ).isSome ∧ ("rate_limit" : String) = "rate_limit" then
        (none : Option ℚ).getD 0 * (6/5)
      else if ("rate_limit" : String) = "rate_limit" then
        min (RetryManager.base_delay_of "rate_limit" * 2 ^ (1 : Nat) * 1) 1800
      else
        min (RetryManager.base_delay_of "rate_limit" * (3/2 : ℚ) ^ (1 : Nat) * 1)
          (RetryManager.max_delay_of "rate_limit")) :=
  ⟨⟨by norm_num, by norm_num⟩,
    calculate_delay_c3_amended "rate_limit" 1 [] none 1 (by norm_num) (by norm_num)⟩

/-- C10: classify_error never returns "stale_element": a message containing
both "stale" and "element" contains "element", so the earlier selector rule
already fires; the stale_element rule is unreachable. -/
theorem classify_error_no_stale_element_c10 :
    ∀ e : Scraper.Failure, ErrorClassifier.classify_error e ≠ "stale_element" := by
  intro e
  show ErrorClassifier.classify_from_msg (pyLower e.msg) e.is_timeout ≠ "stale_element"
  generalize pyLower e.msg = m
  generalize e.is_timeout = b
  unfold ErrorClassifier.classify_from_msg
  by_cases h1 : (pyIn "dns" m || pyIn "name resolution" m || pyIn "nodename nor servname" m) = true
  · rw [if_pos h1]; decide
  rw [if_neg h1]
  by_cases h2 : (pyIn "ssl" m || pyIn "tls" m || pyIn "certificate" m) = true
  · rw [if_pos h2]; decide
  rw [if_neg h2]
  by_cases h3 : (pyIn "connection refused" m || pyIn "connection reset" m) = true
  · rw [if_pos h3]; decide
  rw [if_neg h3]
  by_cases h4 : (pyIn "network" m && pyIn "unreachable" m) = true
  · rw [if_pos h4]; decide
  rw [if_neg h4]
  by_cases h5 : (pyIn "429" m || pyIn "too many requests" m || pyIn "rate limit" m) = true
  · rw [if_pos h5]; decide
  rw [if_neg h5]
  by_cases h6 : (pyIn "403" m || pyIn "forbidden" m) = true
  · rw [if_pos h6]; decide
  rw [if_neg h6]
  by_cases h7 : (pyIn "404" m || pyIn "not found" m) = true
  · rw [if_pos h7]; decide
  rw [if_neg h7]
  by_cases h8 : (pyIn "500" m || pyIn "502" m || pyIn "503" m || pyIn "504" m) = true
  · rw [if_pos h8]; decide
  rw [if_neg h8]
  by_cases h9 : (b || pyIn "timeout" m) = true
  · rw [if_pos h9]; decide
  rw [if_neg h9]
  by_cases h10 : (pyIn "selector" m || pyIn "element" m || pyIn "locator" m) = true
  · rw [if_pos h10]; decide
  rw [if_neg h10]
  by_cases h11 : (pyIn "stale" m && pyIn "element" m) = true
  · exfalso
    simp only [Bool.or_eq_true, Bool.and_eq_true, not_or] at h10 h11
    exact absurd h11.2 h10.1.2
  rw [if_neg h11]
  by_cases h12 : (pyIn "frame" m && (pyIn "not found" m || pyIn "detached" m)) = true
  · rw [if_pos h12]; decide
  rw [if_neg h12]
  by_cases h13 : (pyIn "dialog" m || pyIn "alert" m || pyIn "popup" m) = true
  · rw [if_pos h13]; decide
  rw [if_neg h13]
  by_cases h14 : (pyIn "captcha" m || pyIn "recaptcha" m || pyIn "hcaptcha" m) = true
  · rw [if_pos h14]; decide
  rw [if_neg h14]
  by_cases h15 : (pyIn "cloudflare" m || pyIn "challenge" m || pyIn "verification" m) = true
  · rw [if_pos h15]; decide
  rw [if_neg h15]
  by_cases h16 : (pyIn "blocked" m || pyIn "banned" m) = true
  · rw [if_pos h16]; decide
  rw [if_neg h16]
  by_cases h17 : (pyIn "json" m && (pyIn "parse" m || pyIn "decode" m)) = true
  · rw [if_pos h17]; decide
  rw [if_neg h17]
  by_cases h18 : (pyIn "encoding" m || pyIn "charset" m || pyIn "unicode" m) = true
  · rw [if_pos h18]; decide
  rw [if_neg h18]
  by_cases h19 : (pyIn "javascript" m || pyIn "script" m || pyIn "eval" m) = true
  · rw [if_pos h19]; decide
  rw [if_neg h19]
  by_cases h20 : (pyIn "memory" m || pyIn "out of memory" m) = true
  · rw [if_pos h20]; decide
  rw [if_neg h20]
  by_cases h21 : (pyIn "cpu" m || pyIn "timeout" m && pyIn "script" m) = true
  · rw [if_pos h21]; decide
  rw [if_neg h21]
  by_cases h22 : (pyIn "disk" m || pyIn "space" m) = true
  · rw [if_pos h22]; decide
  rw [if_neg h22]
  by_cases h23 : (pyIn "ajax" m || pyIn "xhr" m || pyIn "fetch" m) = true
  · rw [if_pos h23]; decide
  rw [if_neg h23]
  by_cases h24 : (pyIn "websocket" m) = true
  · rw [if_pos h24]; decide
  rw [if_neg h24]
  by_cases h25 : (pyIn "race" m || pyIn "timing" m) = true
  · rw [if_pos h25]; decide
  rw [if_neg h25]
  by_cases h26 : (pyIn "geo" m || pyIn "region" m || pyIn "location" m || pyIn "blocked" m) = true
  · rw [if_pos h26]; decide
  rw [if_neg h26]
  by_cases h27 : (pyIn "cookie" m || pyIn "localstorage" m) = true
  · rw [if_pos h27]; decide
  rw [if_neg h27]
  decide

/-! ### Helper lemmas for the retry loop -/

/-- Unfolding one loop iteration whose operation call succeeds. -/
theorem exec_go_ok {α : Type} (op : Nat → Except Failure α) (jit : Nat → ℚ)
    (ctx : RetryManager.Ctx) (name : String) (mr attempt fuel : Nat)
    (ra : Option ℚ) (ds : List ℚ) (cs : List (String × Nat)) (v : α)
    (hop : op attempt = Except.ok v) :
    RetryManager.exec_go op jit ctx name mr attempt (fuel + 1) ra ds cs =
      ⟨Except.ok v, attempt + 1, ds.reverse, RetryManager.resetIfPresent cs name⟩ := by
  conv_lhs => unfold RetryManager.exec_go
  rw [hop]

/-- Unfolding one loop iteration whose operation call fails. -/
theorem exec_go_error {α : Type} (op : Nat → Except Failure α) (jit : Nat → ℚ)
    (ctx : RetryManager.Ctx) (name : String) (mr attempt fuel : Nat)
    (ra : Option ℚ) (ds : List ℚ) (cs : List (String × Nat)) (f : Failure)
    (hop : op attempt = Except.error f) :
    RetryManager.exec_go op jit ctx name mr attempt (fuel + 1) ra ds cs =
      (if attempt = mr then
        ⟨Except.error f, attempt + 1, ds.reverse, RetryManager.bumpCount cs name⟩
      else if ! ErrorClassifier.should_retry (ErrorClassifier.classify_error f) then
        ⟨Except.error f, attempt + 1, ds.reverse, RetryManager.bumpCount cs name⟩
      else
        RetryManager.exec_go op jit ctx name mr (attempt + 1) fuel
          (RetryManager.retry_after_of ctx)
          (RetryManager.calculate_delay (ErrorClassifier.classify_error f) attempt ctx
            (RetryManager.retry_after_of ctx) (jit attempt) :: ds)
          (RetryManager.bumpCount cs name)) := by
  conv_lhs => unfold RetryManager.exec_go
  rw [hop]

/-- The pre-jitter delay for rate_limit never shrinks from one attempt to
the next. -/
theorem pre_jitter_delay_rate_limit_mono (ra : Option ℚ) (i : Nat) :
    RetryManager.pre_jitter_delay "rate_limit" i ra ≤
      RetryManager.pre_jitter_delay "rate_limit" (i + 1) ra := by
  have hb : RetryManager.base_delay_of "rate_limit" = 60 := by decide
  cases ra with
  | none =>
    have h1 : RetryManager.pre_jitter_delay "rate_limit" i none = 60 * 2 ^ i := by
      simp [RetryManager.pre_jitter_delay, RetryManager.exp_delay, hb]
    have h2 : RetryManager.pre_jitter_delay "rate_limit" (i + 1) none =
        60 * 2 ^ (i + 1) := by
      simp [RetryManager.pre_jitter_delay, RetryManager.exp_delay, hb]
    rw [h1, h2]
    have hp : (0 : ℚ) < 2 ^ i := pow_pos (by norm_num) i
    rw [pow_succ]
    nlinarith
  | some r =>
    simp [RetryManager.pre_jitter_delay]

/-- A run of the retry loop on an operation that always fails with a
rate_limit-classified error: starting at `attempt` with exactly enough fuel,
it reaches attempt `mr`, raises the last failure, and sleeps the computed
backoff once per retried attempt. -/
theorem exec_go_rate_limit_run {α : Type} (op : Nat → Except Failure α) (jit : Nat → ℚ)
    (ctx : RetryManager.Ctx) (name : String) (mr : Nat) (e : Nat → Failure)
    (hop : ∀ i, op i = Except.error (e i))
    (hcl : ∀ i, ErrorClassifier.classify_error (e i) = "rate_limit") :
    ∀ (fuel attempt : Nat) (ra : Option ℚ) (ds : List ℚ) (cs : List (String × Nat)),
      fuel + attempt = mr + 1 → attempt ≤ mr →
      (RetryManager.exec_go op jit ctx name mr attempt fuel ra ds cs).outcome =
          Except.error (e mr) ∧
      (RetryManager.exec_go op jit ctx name mr attempt fuel ra ds cs).attempts = mr + 1 ∧
      (RetryManager.exec_go op jit ctx name mr attempt fuel ra ds cs).delays =
        ds.reverse ++ (List.range (mr - attempt)).map (fun k =>
          RetryManager.calculate_delay "rate_limit" (attempt + k) ctx
            (RetryManager.retry_after_of ctx) (jit (attempt + k))) := by
  have hsr : ErrorClassifier.should_retry "rate_limit" = true := by decide
  intro fuel
  induction fuel with
  | zero => intro attempt ra ds cs hf hle; omega
  | succ f ih =>
    intro attempt ra ds cs hf hle
    rw [exec_go_error _ _ _ _ _ _ _ _ _ _ _ (hop attempt), hcl attempt, hsr]
    by_cases hmr : attempt = mr
    · subst hmr
      rw [if_pos rfl]
      refine ⟨rfl, rfl, ?_⟩
      simp
    · rw [if_neg hmr]
      simp only [Bool.not_true, Bool.false_eq_true, if_false]
      obtain ⟨ho, ha, hd⟩ := ih (attempt + 1) (RetryManager.retry_after_of ctx)
        (RetryManager.calculate_delay "rate_limit" attempt ctx
          (RetryManager.retry_after_of ctx) (jit attempt) :: ds)
        (RetryManager.bumpCount cs name) (by omega) (by omega)
      refine ⟨ho, ha, ?_⟩
      rw [hd]
      have hsub : mr - attempt = (mr - (attempt + 1)) + 1 := by omega
      rw [hsub, List.range_succ_eq_map]
      have hfun : (fun k => RetryManager.calculate_delay "rate_limit" (attempt + 1 + k) ctx
            (RetryManager.retry_after_of ctx) (jit (attempt + 1 + k))) =
          ((fun k => RetryManager.calculate_delay "rate_limit" (attempt + k) ctx
            (RetryManager.retry_after_of ctx) (jit (attempt + k))) ∘ Nat.succ) := by
        funext k
        have hk : attempt + 1 + k = attempt + Nat.succ k := by omega
        simp only [Function.comp_apply, hk]
      rw [hfun]
      simp

/-! ### Claim theorems for the retry loop -/

/-- C9: the behaviour of execute_with_retry is independent of its explicit
retry_after parameter: with the same context and random draws, two runs
differing only in that argument have identical outcomes, attempt counts,
delays and counters, because the local is overwritten from
context.get("retry_after") before any delay is computed. -/
theorem execute_with_retry_retry_after_irrelevant_c9 :
    ∀ {α : Type} (step_func : Nat → Except Failure α) (jit : Nat → ℚ)
      (step_name : String) (max_retries : Nat) (context : Option RetryManager.Ctx)
      (counts0 : List (String × Nat)) (ra1 ra2 : Option ℚ),
      RetryManager.execute_with_retry step_func jit step_name max_retries context ra1 counts0 =
        RetryManager.execute_with_retry step_func jit step_name max_retries context ra2 counts0 := by
  intro α step_func jit step_name max_retries context counts0 ra1 ra2
  unfold RetryManager.execute_with_retry
  cases h : step_func 0 with
  | ok v =>
    rw [exec_go_ok _ _ _ _ _ _ _ _ _ _ _ h, exec_go_ok _ _ _ _ _ _ _ _ _ _ _ h]
  | error f =>
    rw [exec_go_error _ _ _ _ _ _ _ _ _ _ _ h, exec_go_error _ _ _ _ _ _ _ _ _ _ _ h]

/-- C4: if the first attempt raises a failure whose classified kind is
non-retryable and maxRetries ≥ 1, execute_with_retry propagates that
failure after exactly one invocation with no sleep. -/
theorem execute_with_retry_non_retryable_c4 :
    ∀ {α : Type} (step_func : Nat → Except Failure α) (jit : Nat → ℚ)
      (step_name : String) (max_retries : Nat) (context : Option RetryManager.Ctx)
      (retry_after : Option ℚ) (counts0 : List (String × Nat)) (f : Failure),
      1 ≤ max_retries →
      step_func 0 = Except.error f →
      ErrorClassifier.should_retry (ErrorClassifier.classify_error f) = false →
      (RetryManager.execute_with_retry step_func jit step_name max_retries context
          retry_after counts0).outcome = Except.error f ∧
      (RetryManager.execute_with_retry step_func jit step_name max_retries context
          retry_after counts0).attempts = 1 ∧
      (RetryManager.execute_with_retry step_func jit step_name max_retries context
          retry_after counts0).delays = [] := by
  intro α step_func jit step_name max_retries context retry_after counts0 f hmr hop hnr
  unfold RetryManager.execute_with_retry
  rw [exec_go_error _ _ _ _ _ _ _ _ _ _ _ hop]
  rw [if_neg (show ¬(0 = max_retries) by omega), hnr]
  simp

/-- Witness for C4: a "403 forbidden" failure propagates at once under
maxRetries = 2. -/
theorem execute_with_retry_non_retryable_c4_witness :
    (1 ≤ 2 ∧
      (fun _ : Nat => (Except.error ⟨"403 forbidden", false⟩ : Except Failure Unit)) 0 =
        Except.error ⟨"403 forbidden", false⟩ ∧
      ErrorClassifier.should_retry
        (ErrorClassifier.classify_error ⟨"403 forbidden", false⟩) = false) ∧
    (RetryManager.execute_with_retry
        (fun _ => (Except.error ⟨"403 forbidden", false⟩ : Except Failure Unit))
        (fun _ => 1) "step" 2 none none []).outcome =
      Except.error ⟨"403 forbidden", false⟩ ∧
    (RetryManager.execute_with_retry
        (fun _ => (Except.error ⟨"403 forbidden", false⟩ : Except Failure Unit))
        (fun _ => 1) "step" 2 none none []).attempts = 1 ∧
    (RetryManager.execute_with_retry
        (fun _ => (Except.error ⟨"403 forbidden", false⟩ : Except Failure Unit))
        (fun _ => 1) "step" 2 none none []).delays = [] := by
  have hclass : ErrorClassifier.classify_error ⟨"403 forbidden", false⟩ = "forbidden" := by
    decide
  have hnr : ErrorClassifier.should_retry
      (ErrorClassifier.classify_error ⟨"403 forbidden", false⟩) = false := by
    rw [hclass]; decide
  exact ⟨⟨by decide, rfl, hnr⟩,
    execute_with_retry_non_retryable_c4
      (fun _ => (Except.error ⟨"403 forbidden", false⟩ : Except Failure Unit))
      (fun _ => 1) "step" 2 none none [] ⟨"403 forbidden", false⟩
      (by decide) rfl hnr⟩

/-- C1: with maxRetries = 2 and an operation that always raises a
rate_limit-classified failure, the operation runs exactly 3 times, the two
sleeps are the computed rate_limit backoffs for attempts 0 and 1, the
pre-jitter delay before the 3rd attempt is at least the one before the 2nd,
and the call finally raises the last failure. -/
theorem execute_with_retry_rate_limit_c1 :
    ∀ {α : Type} (step_func : Nat → Except Failure α) (jit : Nat → ℚ)
      (step_name : String) (context : Option RetryManager.Ctx)
      (retry_after0 : Option ℚ) (counts0 : List (String × Nat)) (e : Nat → Failure),
      (∀ i, step_func i = Except.error (e i)) →
      (∀ i, ErrorClassifier.classify_error (e i) = "rate_limit") →
      (RetryManager.execute_with_retry step_func jit step_name 2 context
          retry_after0 counts0).attempts = 3 ∧
      (RetryManager.execute_with_retry step_func jit step_name 2 context
          retry_after0 counts0).outcome = Except.error (e 2) ∧
      (RetryManager.execute_with_retry step_func jit step_name 2 context
          retry_after0 counts0).delays =
        [RetryManager.calculate_delay "rate_limit" 0 (context.getD [])
            (RetryManager.retry_after_of (context.getD [])) (jit 0),
         RetryManager.calculate_delay "rate_limit" 1 (context.getD [])
            (RetryManager.retry_after_of (context.getD [])) (jit 1)] ∧
      RetryManager.pre_jitter_delay "rate_limit" 0
          (RetryManager.retry_after_of (context.getD [])) ≤
        RetryManager.pre_jitter_delay "rate_limit" 1
          (RetryManager.retry_after_of (context.getD [])) := by
  intro α step_func jit step_name context retry_after0 counts0 e hop hcl
  obtain ⟨ho, ha, hd⟩ := exec_go_rate_limit_run step_func jit (context.getD [])
    step_name 2 e hop hcl (2 + 1) 0 retry_after0 [] counts0 (by omega) (by omega)
  refine ⟨ha, ho, ?_, pre_jitter_delay_rate_limit_mono _ 0⟩
  rw [show RetryManager.execute_with_retry step_func jit step_name 2 context
      retry_after0 counts0 = RetryManager.exec_go step_func jit (context.getD [])
      step_name 2 0 (2 + 1) retry_after0 [] counts0 from rfl]
  rw [hd]
  norm_num [List.range_succ]

/-- C6: for every error kind, step and context, get_fallback_strategy
returns a (possibly adjusted) deep copy living at a fresh reference, and the
caller's original step descriptor is left completely unchanged. -/
theorem get_fallback_strategy_frame_c6 :
    ∀ (error_type : String) (σ : RecoveryManager.Store) (r : Nat) (context : StepDict),
      r < σ.length →
      RecoveryManager.readRef
          (RecoveryManager.get_fallback_strategy error_type σ r context).1 r =
        RecoveryManager.readRef σ r ∧
      (RecoveryManager.get_fallback_strategy error_type σ r context).2 ≠ r ∧
      RecoveryManager.readRef
          (RecoveryManager.get_fallback_strategy error_type σ r context).1
          (RecoveryManager.get_fallback_strategy error_type σ r context).2 =
        RecoveryManager.strategyApply error_type (RecoveryManager.readRef σ r) context := by
  intro error_type σ r context hr
  have hcopy : RecoveryManager.readRef (σ ++ [RecoveryManager.readRef σ r]) σ.length =
      RecoveryManager.readRef σ r := by
    unfold RecoveryManager.readRef
    rw [List.getElem?_concat_length]
    rfl
  have hsnd : (RecoveryManager.get_fallback_strategy error_type σ r context).2 =
      σ.length := rfl
  refine ⟨?_, by rw [hsnd]; omega, ?_⟩
  · show RecoveryManager.readRef
        ((σ ++ [RecoveryManager.readRef σ r]).set σ.length
          (RecoveryManager.strategyApply error_type
            (RecoveryManager.readRef (σ ++ [RecoveryManager.readRef σ r]) σ.length)
            context)) r =
      RecoveryManager.readRef σ r
    unfold RecoveryManager.readRef
    rw [List.getElem?_set_ne (by omega), List.getElem?_append_left hr]
  · show RecoveryManager.readRef
        ((σ ++ [RecoveryManager.readRef σ r]).set σ.length
          (RecoveryManager.strategyApply error_type
            (RecoveryManager.readRef (σ ++ [RecoveryManager.readRef σ r]) σ.length)
            context)) σ.length =
      RecoveryManager.strategyApply error_type (RecoveryManager.readRef σ r) context
    rw [hcopy]
    unfold RecoveryManager.readRef
    rw [List.getElem?_set_self (by simp)]
    rfl

/-- Witness for C6 at a timeout step held in a one-entry store. -/
theorem get_fallback_strategy_frame_c6_witness :
    0 < ([[("timeout", Value.num 4)]] : RecoveryManager.Store).length ∧
    (RecoveryManager.readRef
        (RecoveryManager.get_fallback_strategy "timeout"
          [[("timeout", Value.num 4)]] 0 []).1 0 =
      RecoveryManager.readRef [[("timeout", Value.num 4)]] 0 ∧
    (RecoveryManager.get_fallback_strategy "timeout"
        [[("timeout", Value.num 4)]] 0 []).2 ≠ 0 ∧
    RecoveryManager.readRef
        (RecoveryManager.get_fallback_strategy "timeout"
          [[("timeout", Value.num 4)]] 0 []).1
        (RecoveryManager.get_fallback_strategy "timeout"
          [[("timeout", Value.num 4)]] 0 []).2 =
      RecoveryManager.strategyApply "timeout"
        (RecoveryManager.readRef [[("timeout", Value.num 4)]] 0) []) :=
  ⟨by decide,
    get_fallback_strategy_frame_c6 "timeout" [[("timeout", Value.num 4)]] 0 []
      (by decide)⟩

/-- Witness for C1: a constant "429" failure under maxRetries = 2 with unit
jitter and empty context. -/
theorem execute_with_retry_rate_limit_c1_witness :
    ((fun _ : Nat => (Except.error ⟨"429", false⟩ : Except Failure Unit)) 0 =
        Except.error ⟨"429", false⟩ ∧
      ErrorClassifier.classify_error ⟨"429", false⟩ = "rate_limit") ∧
    (RetryManager.execute_with_retry
        (fun _ => (Except.error ⟨"429", false⟩ : Except Failure Unit))
        (fun _ => 1) "step" 2 none none []).attempts = 3 ∧
    (RetryManager.execute_with_retry
        (fun _ => (Except.error ⟨"429", false⟩ : Except Failure Unit))
        (fun _ => 1) "step" 2 none none []).outcome = Except.error ⟨"429", false⟩ ∧
    (RetryManager.execute_with_retry
        (fun _ => (Except.error ⟨"429", false⟩ : Except Failure Unit))
        (fun _ => 1) "step" 2 none none []).delays =
      [RetryManager.calculate_delay "rate_limit" 0 []
          (RetryManager.retry_after_of []) 1,
       RetryManager.calculate_delay "rate_limit" 1 []
          (RetryManager.retry_after_of []) 1] ∧
    RetryManager.pre_jitter_delay "rate_limit" 0 (RetryManager.retry_after_of []) ≤
      RetryManager.pre_jitter_delay "rate_limit" 1 (RetryManager.retry_after_of []) := by
  have hcl : ErrorClassifier.classify_error ⟨"429", false⟩ = "rate_limit" := by decide
  exact ⟨⟨rfl, hcl⟩,
    execute_with_retry_rate_limit_c1
      (fun _ => (Except.error ⟨"429", false⟩ : Except Failure Unit))
      (fun _ => 1) "step" none none [] (fun _ => ⟨"429", false⟩)
      (fun _ => rfl) (fun _ => hcl)⟩

/-! ### Lemmas on the pagination loop -/

/-- One-step unfolding of the pagination loop with fuel left. -/
theorem autoPaginateAux_succ {α : Type} (hash : String → ℤ) (strOf : α → String)
    (extract : Nat → List α) (f page : Nat) (acc : List α) (seen : List ℤ) :
    Paginator.autoPaginateAux hash strOf extract (f + 1) page acc seen =
      (if (Paginator.dedupNew hash strOf seen (extract page)).1.isEmpty then
        ⟨acc, 1⟩
      else
        ⟨(Paginator.autoPaginateAux hash strOf extract f (page + 1)
            (acc ++ (Paginator.dedupNew hash strOf seen (extract page)).1)
            (Paginator.dedupNew hash strOf seen (extract page)).2).data,
         (Paginator.autoPaginateAux hash strOf extract f (page + 1)
            (acc ++ (Paginator.dedupNew hash strOf seen (extract page)).1)
            (Paginator.dedupNew hash strOf seen (extract page)).2).calls + 1⟩) := by
  rfl

/-- `pagState` unfolded one iteration. -/
theorem pagState_succ {α : Type} (hash : String → ℤ) (strOf : α → String)
    (extract : Nat → List α) (i : Nat) :
    Paginator.pagState hash strOf extract (i + 1) =
      ((Paginator.pagState hash strOf extract i).1 ++
        (Paginator.dedupNew hash strOf (Paginator.pagState hash strOf extract i).2
          (extract (i + 1))).1,
       (Paginator.dedupNew hash strOf (Paginator.pagState hash strOf extract i).2
          (extract (i + 1))).2) := by
  rfl

/-- The deduplication pass keeps items with fresh, pairwise-distinct
fingerprints, and grows the seen set to cover them. -/
theorem dedupNew_spec {α : Type} (hash : String → ℤ) (strOf : α → String) :
    ∀ (l : List α) (seen : List ℤ),
      ((Paginator.dedupNew hash strOf seen l).1.map (fun x => hash (strOf x))).Nodup ∧
      (∀ x ∈ (Paginator.dedupNew hash strOf seen l).1, hash (strOf x) ∉ seen) ∧
      (∀ z ∈ seen, z ∈ (Paginator.dedupNew hash strOf seen l).2) ∧
      (∀ x ∈ (Paginator.dedupNew hash strOf seen l).1,
        hash (strOf x) ∈ (Paginator.dedupNew hash strOf seen l).2) := by
  intro l
  induction l with
  | nil => intro seen; simp [Paginator.dedupNew]
  | cons item rest ih =>
    intro seen
    by_cases hmem : hash (strOf item) ∈ seen
    · have heq : Paginator.dedupNew hash strOf seen (item :: rest) =
          Paginator.dedupNew hash strOf seen rest := by
        rw [Paginator.dedupNew.eq_2, if_pos hmem]
      rw [heq]
      exact ih seen
    · have heq : Paginator.dedupNew hash strOf seen (item :: rest) =
          (item :: (Paginator.dedupNew hash strOf (hash (strOf item) :: seen) rest).1,
           (Paginator.dedupNew hash strOf (hash (strOf item) :: seen) rest).2) := by
        rw [Paginator.dedupNew.eq_2, if_neg hmem]
      rw [heq]
      obtain ⟨hn, h2, h3, h4⟩ := ih (hash (strOf item) :: seen)
      refine ⟨?_, ?_, ?_, ?_⟩
      · simp only [List.map_cons, List.nodup_cons]
        refine ⟨?_, hn⟩
        intro hc
        obtain ⟨x, hx, hxe⟩ := List.mem_map.mp hc
        exact (h2 x hx) (by rw [hxe]; exact List.mem_cons_self _ _)
      · intro x hx
        rcases List.mem_cons.mp hx with hx | hx
        · rw [hx]; exact hmem
        · intro hs
          exact (h2 x hx) (List.mem_cons_of_mem _ hs)
      · intro z hz
        exact h3 z (List.mem_cons_of_mem _ hz)
      · intro x hx
        rcases List.mem_cons.mp hx with hx | hx
        · rw [hx]; exact h3 _ (List.mem_cons_self _ _)
        · exact h4 x hx
    
/-- The loop calls the extractor at most `fuel` times. -/
theorem autoPaginateAux_calls_le {α : Type} (hash : String → ℤ) (strOf : α → String)
    (extract : Nat → List α) :
    ∀ (fuel page : Nat) (acc : List α) (seen : List ℤ),
      (Paginator.autoPaginateAux hash strOf extract fuel page acc seen).calls ≤ fuel := by
  intro fuel
  induction fuel with
  | zero => intro page acc seen; simp [Paginator.autoPaginateAux]
  | succ f ih =>
    intro page acc seen
    rw [autoPaginateAux_succ]
    by_cases h : (Paginator.dedupNew hash strOf seen (extract page)).1.isEmpty
    · rw [if_pos h]
      show 1 ≤ f + 1
      omega
    · rw [if_neg h]
      have hrec := ih (page + 1)
        (acc ++ (Paginator.dedupNew hash strOf seen (extract page)).1)
        (Paginator.dedupNew hash strOf seen (extract page)).2
      show (Paginator.autoPaginateAux hash strOf extract f (page + 1)
          (acc ++ (Paginator.dedupNew hash strOf seen (extract page)).1)
          (Paginator.dedupNew hash strOf seen (extract page)).2).calls + 1 ≤ f + 1
      omega

/-- The aggregate keeps pairwise-distinct fingerprints, given the invariant
that the accumulator is fingerprint-distinct and covered by the seen set. -/
theorem autoPaginateAux_nodup {α : Type} (hash : String → ℤ) (strOf : α → String)
    (extract : Nat → List α) :
    ∀ (fuel page : Nat) (acc : List α) (seen : List ℤ),
      (acc.map (fun x => hash (strOf x))).Nodup →
      (∀ x ∈ acc, hash (strOf x) ∈ seen) →
      ((Paginator.autoPaginateAux hash strOf extract fuel page acc seen).data.map
        (fun x => hash (strOf x))).Nodup := by
  intro fuel
  induction fuel with
  | zero =>
    intro page acc seen hnd hcov
    simpa [Paginator.autoPaginateAux] using hnd
  | succ f ih =>
    intro page acc seen hnd hcov
    rw [autoPaginateAux_succ]
    obtain ⟨hn, h2, h3, h4⟩ := dedupNew_spec hash strOf (extract page) seen
    by_cases h : (Paginator.dedupNew hash strOf seen (extract page)).1.isEmpty
    · rw [if_pos h]
      exact hnd
    · rw [if_neg h]
      apply ih
      · rw [List.map_append, List.nodup_append]
        refine ⟨hnd, hn, ?_⟩
        intro z hza hzu
        obtain ⟨x, hx, hxe⟩ := List.mem_map.mp hza
        obtain ⟨y, hy, hye⟩ := List.mem_map.mp hzu
        apply h2 y hy
        rw [hye, ← hxe]
        exact hcov x hx
      · intro x hx
        rcases List.mem_append.mp hx with hx | hx
        · exact h3 _ (hcov x hx)
        · exact h4 x hx

/-- If iteration `i + 1` would retain nothing new, the loop makes at most
`i + 1 - k` further extractor calls from the state after `k` iterations. -/
theorem autoPaginateAux_stop {α : Type} (hash : String → ℤ) (strOf : α → String)
    (extract : Nat → List α) (i : Nat)
    (hstop : Paginator.uniqueAt hash strOf extract i = []) :
    ∀ (fuel k : Nat), k ≤ i →
      (Paginator.autoPaginateAux hash strOf extract fuel (k + 1)
        (Paginator.pagState hash strOf extract k).1
        (Paginator.pagState hash strOf extract k).2).calls ≤ i + 1 - k := by
  intro fuel
  induction fuel with
  | zero =>
    intro k hk
    simp only [Paginator.autoPaginateAux]
    omega
  | succ f ih =>
    intro k hk
    rw [autoPaginateAux_succ]
    by_cases h : (Paginator.dedupNew hash strOf
        (Paginator.pagState hash strOf extract k).2 (extract (k + 1))).1.isEmpty
    · rw [if_pos h]
      show 1 ≤ i + 1 - k
      omega
    · rw [if_neg h]
      have hne : k ≠ i := by
        intro hki
        subst hki
        apply h
        unfold Paginator.uniqueAt at hstop
        rw [hstop]
        rfl
      have hps1 : (Paginator.pagState hash strOf extract (k + 1)).1 =
          (Paginator.pagState hash strOf extract k).1 ++
            (Paginator.dedupNew hash strOf (Paginator.pagState hash strOf extract k).2
              (extract (k + 1))).1 := by
        rw [pagState_succ]
      have hps2 : (Paginator.pagState hash strOf extract (k + 1)).2 =
          (Paginator.dedupNew hash strOf (Paginator.pagState hash strOf extract k).2
            (extract (k + 1))).2 := by
        rw [pagState_succ]
      show (Paginator.autoPaginateAux hash strOf extract f (k + 1 + 1)
          ((Paginator.pagState hash strOf extract k).1 ++
            (Paginator.dedupNew hash strOf (Paginator.pagState hash strOf extract k).2
              (extract (k + 1))).1)
          (Paginator.dedupNew hash strOf (Paginator.pagState hash strOf extract k).2
            (extract (k + 1))).2).calls + 1 ≤ i + 1 - k
      rw [← hps1, ← hps2]
      have hrec := ih (k + 1) (by omega)
      omega

/-- A run on a constant extractor of three fingerprint-distinct items
returns exactly those three items. -/
theorem auto_paginate_const_three {α : Type} (hash : String → ℤ) (strOf : α → String)
    (a b c : α)
    (hab : hash (strOf a) ≠ hash (strOf b)) (hac : hash (strOf a) ≠ hash (strOf c))
    (hbc : hash (strOf b) ≠ hash (strOf c)) :
    ∀ max_pages : Nat, 1 ≤ max_pages →
      (Paginator.auto_paginate hash strOf (fun _ => [a, b, c]) max_pages).data =
        [a, b, c] := by
  intro mp hmp
  obtain ⟨m, rfl⟩ : ∃ m, mp = m + 1 := ⟨mp - 1, by omega⟩
  have hd1 : Paginator.dedupNew hash strOf [] [a, b, c] =
      ([a, b, c], [hash (strOf c), hash (strOf b), hash (strOf a)]) := by
    simp [Paginator.dedupNew, Ne.symm hab, Ne.symm hac, Ne.symm hbc]
  have hd2 : Paginator.dedupNew hash strOf
      [hash (strOf c), hash (strOf b), hash (strOf a)] [a, b, c] =
      ([], [hash (strOf c), hash (strOf b), hash (strOf a)]) := by
    simp [Paginator.dedupNew]
  unfold Paginator.auto_paginate
  rw [autoPaginateAux_succ]
  simp only [hd1, List.isEmpty_cons, if_false, Bool.false_eq_true, List.nil_append]
  cases m with
  | zero => simp [Paginator.autoPaginateAux]
  | succ n =>
    rw [autoPaginateAux_succ]
    simp [hd2]

/-! ### Claim theorem for pagination -/

/-- C7: the pagination loop calls the extractor at most maxPages times, the
returned aggregate never holds two items with the same fingerprint, an
iteration yielding zero new unique items is the last one, and a constant
extractor of three fingerprint-distinct items yields exactly those three
items. -/
theorem auto_paginate_c7 :
    ∀ {α : Type} (hash : String → ℤ) (strOf : α → String)
      (extract : Nat → List α) (max_pages : Nat),
      (Paginator.auto_paginate hash strOf extract max_pages).calls ≤ max_pages ∧
      ((Paginator.auto_paginate hash strOf extract max_pages).data.map
        (fun x => hash (strOf x))).Nodup ∧
      (∀ i, Paginator.uniqueAt hash strOf extract i = [] →
        (Paginator.auto_paginate hash strOf extract max_pages).calls ≤ i + 1) ∧
      (∀ a b c : α, (∀ n, extract n = [a, b, c]) →
        hash (strOf a) ≠ hash (strOf b) → hash (strOf a) ≠ hash (strOf c) →
        hash (strOf b) ≠ hash (strOf c) → 1 ≤ max_pages →
        (Paginator.auto_paginate hash strOf extract max_pages).data = [a, b, c]) := by
  intro α hash strOf extract max_pages
  refine ⟨?_, ?_, ?_, ?_⟩
  · exact autoPaginateAux_calls_le hash strOf extract max_pages 1 [] []
  · exact autoPaginateAux_nodup hash strOf extract max_pages 1 [] []
      (by simp) (by simp)
  · intro i hstop
    have := autoPaginateAux_stop hash strOf extract i hstop max_pages 0 (Nat.zero_le i)
    simpa using this
  · intro a b c hext hab hac hbc hmp
    have hfun : extract = fun _ => [a, b, c] := funext hext
    subst hfun
    exact auto_paginate_const_three hash strOf a b c hab hac hbc max_pages hmp

/-- Witness for C7: extracting the constant page ["a", "b", "c"] under a
character-code fingerprint with maxPages = 5. -/
theorem auto_paginate_c7_witness :
    (Paginator.auto_paginate strCode (fun s => s) (fun _ => ["a", "b", "c"]) 5).calls ≤ 5 ∧
    ((Paginator.auto_paginate strCode (fun s => s) (fun _ => ["a", "b", "c"]) 5).data.map
      (fun x => strCode x)).Nodup ∧
    ((∀ n : Nat, (fun _ : Nat => (["a", "b", "c"] : List String)) n = ["a", "b", "c"]) ∧
      strCode "a" ≠ strCode "b" ∧ strCode "a" ≠ strCode "c" ∧
      strCode "b" ≠ strCode "c" ∧ 1 ≤ 5) ∧
    (Paginator.auto_paginate strCode (fun s => s) (fun _ => ["a", "b", "c"]) 5).data =
      ["a", "b", "c"] := by
  obtain ⟨h1, h2, h3, h4⟩ :=
    auto_paginate_c7 strCode (fun s => s) (fun _ => ["a", "b", "c"]) 5
  exact ⟨h1, h2, ⟨fun n => rfl, by decide, by decide, by decide, by decide⟩,
    h4 "a" "b" "c" (fun n => rfl) (by decide) (by decide) (by decide) (by decide)⟩

end Scraper
